import Mathlib

/-!
Shallow embedding of the `bevy_screen_diags` plugin (`src/lib.rs`).

The plugin keeps a singleton controller entity carrying a `ScreenDiagsTimer`
marker (holding `text_entity : Option Entity`) and a repeating `Timer`.
Each tick the `update` system matches on `(text_entity, timer.paused(),
timer.tick(delta).just_finished())` and either no-ops, spawns the text
element, despawns it, only advances the timer, or refreshes the displayed
value.

Modelling choices:
  * durations are `Nat` nanoseconds (Bevy's `Timer` does its round-robin
    arithmetic on `as_nanos()`); `UPDATE_INTERVAL = Duration::from_secs(1)`
    is `1000000000`;
  * `f64` metric values are embedded as `Rat` (every finite double is a
    rational); Rust's `format!("{:.0}", x)`, which prints the correctly
    rounded integer using round-half-to-even on the exact value, is
    `fmtRound0`;
  * entities are `Nat` ids handed out by a monotone allocator, so a fresh
    spawn always has an id distinct from every previously allocated one;
  * `Query::single_mut`, which panics unless exactly one entity matches,
    is modelled by returning `none` (panic) unless the matching list is a
    singleton; indexing `sections[1]` likewise panics (`none`) when fewer
    than two sections exist;
  * `Commands` effects (spawn/despawn) are visible at end of tick, which is
    the granularity of every claim.
-/

set_option autoImplicit false

namespace ScreenDiags

/-- Entity ids of the host scene. -/
abbrev Entity := Nat

/-- Bevy `Color` (rgba), enough to embed `Color::RED`. -/
structure Color where
  red : Rat
  green : Rat
  blue : Rat
  alpha : Rat
deriving DecidableEq

/-- `const FONT_SIZE: f32 = 32.0;` -/
def FONT_SIZE : Rat := 32

/-- `const FONT_COLOR: Color = Color::RED;` -/
def FONT_COLOR : Color := { red := 1, green := 0, blue := 0, alpha := 1 }

/-- `const UPDATE_INTERVAL: Duration = Duration::from_secs(1);` in nanoseconds. -/
def UPDATE_INTERVAL : Nat := 1000000000

/-- Bevy's repeating/one-shot `Timer` component (times in nanoseconds). -/
structure Timer where
  duration : Nat
  elapsed : Nat
  repeating : Bool
  paused : Bool
  finished : Bool
  times_finished : Nat
deriving DecidableEq

/-- `Timer::new(duration, repeating)`. -/
def Timer.new (duration : Nat) (repeating : Bool) : Timer :=
  { duration := duration, elapsed := 0, repeating := repeating,
    paused := false, finished := false, times_finished := 0 }

/-- Bevy `Timer::tick(delta)`: paused timers do not advance; a finished
non-repeating timer stays finished; otherwise the stopwatch advances and a
repeating timer round-robins its elapsed time, recording how many times the
duration was crossed. -/
def Timer.tick (t : Timer) (delta : Nat) : Timer :=
  if t.paused then t
  else if !t.repeating && t.finished then { t with times_finished := 0 }
  else
    let e := t.elapsed + delta
    if t.duration ≤ e then
      if t.repeating then
        { t with elapsed := e % t.duration, finished := true,
                 times_finished := e / t.duration }
      else
        { t with elapsed := t.duration, finished := true, times_finished := 1 }
    else
      { t with elapsed := e, finished := false, times_finished := 0 }

/-- Bevy `Timer::just_finished()`: `times_finished > 0`. -/
def Timer.just_finished (t : Timer) : Bool := t.times_finished != 0

/-- The marker component `ScreenDiagsTimer { text_entity: Option<Entity> }`. -/
structure ScreenDiagsTimer where
  text_entity : Option Entity
deriving DecidableEq

/-- A `TextStyle { font, font_size, color }` (the font is its asset path). -/
structure TextStyle where
  font : String
  font_size : Rat
  color : Color
deriving DecidableEq

/-- A `TextSection { value, style }`. -/
structure TextSection where
  value : String
  style : TextStyle
deriving DecidableEq

/-- A `Text` component: its list of sections. -/
structure Text where
  sections : List TextSection
deriving DecidableEq

/-- One registered diagnostic: its rolling average, when at least one
measurement exists (`Diagnostic::average`). -/
structure Diagnostic where
  average : Option Rat
deriving DecidableEq

/-- The `Diagnostics` resource, restricted to the FPS diagnostic: `none`
when `FrameTimeDiagnosticsPlugin::FPS` is not registered. -/
structure Diagnostics where
  fps : Option Diagnostic
deriving DecidableEq

/-- `extract_fps`: look up the FPS diagnostic and take
`fps.average().unwrap_or_default()` (default `0.0`). -/
def extract_fps (diagnostics : Diagnostics) : Option Rat :=
  diagnostics.fps.map (fun fps => fps.average.getD 0)

/-- Rust `format!("{:.0}", x)` rounds the exact value of `x` to the nearest
integer, ties to even. The fractional part `q - ⌊q⌋` equals
`(q.num - ⌊q⌋ * q.den) / q.den`, so comparing it with `1/2` is comparing
`2 * (q.num - ⌊q⌋ * q.den)` with `q.den`. -/
def fmtRound0 (q : Rat) : Int :=
  let n : Int := ⌊q⌋
  let r : Int := q.num - n * (q.den : Int)
  if (q.den : Int) < 2 * r then n + 1
  else if 2 * r < (q.den : Int) then n
  else if n % 2 = 0 then n else n + 1

/-- `format_fps(buffer, fps)`: `*buffer = format!("{:.0}", fps)`; we return
the new buffer contents. -/
def format_fps (fps : Rat) : String := toString (fmtRound0 fps)

/-- The world state tracked by the embedding: the entities matching the
`(&mut ScreenDiagsTimer, &mut Timer)` query, the entities matching the
`(&mut Text, With<ScreenDiagsText>)` query, and the fresh-entity allocator. -/
structure State where
  controllers : List (ScreenDiagsTimer × Timer)
  scene : List (Entity × Text)
  next_entity : Entity
deriving DecidableEq

/-- `spawn_text(commands, asset_server, fps)`: spawn a two-section
`TextBundle` (label `"FPS: "`, value `fps` or the placeholder `"..."`),
tagged `ScreenDiagsText`, and return its entity id. -/
def spawn_text (next_entity : Entity) (fps : Option String) : Entity × Text :=
  let handle := "fonts/screen-diags-font.ttf"
  let style : TextStyle := { font := handle, font_size := FONT_SIZE, color := FONT_COLOR }
  (next_entity,
   { sections := [ { value := "FPS: ", style := style },
                   { value := fps.getD "...", style := style } ] })

/-- The startup system `setup`: spawn the text element with no value, then
spawn the controller bundle `(ScreenDiagsTimer { text_entity: Some(entity) },
Timer::new(UPDATE_INTERVAL, true))`. -/
def setup (s : State) : State :=
  let spawned := spawn_text s.next_entity none
  { controllers := s.controllers ++
      [({ text_entity := some spawned.1 }, Timer.new UPDATE_INTERVAL true)],
    scene := s.scene ++ [spawned],
    next_entity := s.next_entity + 1 }

/-- The per-tick system `update`. `timer_query.single_mut()` panics
(`none`) unless exactly one controller exists; then the source's `match`
on `marker.text_entity`, guarded by `timer.paused()` and
`timer.tick(delta).just_finished()`, is reproduced branch for branch.
In the refresh branch, `text_query.single_mut()` and `sections[1]` panic
(`none`) when the scene does not hold exactly one text element with at
least two sections. -/
def update (delta : Nat) (diagnostics : Diagnostics) (s : State) : Option State :=
  match s.controllers with
  | [(marker, timer)] =>
    match marker.text_entity with
    | none =>
      if timer.paused then
        -- Overlay is disabled and has already been despawned - do nothing.
        some s
      else
        -- Overlay has just been enabled but doesn't exist yet - spawn it.
        some { controllers := [({ text_entity := some s.next_entity }, timer)],
               scene := s.scene ++
                 [spawn_text s.next_entity ((extract_fps diagnostics).map format_fps)],
               next_entity := s.next_entity + 1 }
    | some text_entity =>
      if timer.paused then
        -- Overlay has just been disabled, but still exists - despawn it.
        some { controllers := [({ text_entity := none }, timer)],
               scene := s.scene.filter (fun p => p.1 != text_entity),
               next_entity := s.next_entity }
      else
        let ticked := Timer.tick timer delta
        if !ticked.just_finished then
          -- UPDATE_INTERVAL hasn't passed yet - only the timer advanced.
          some { s with controllers := [(marker, ticked)] }
        else
          -- UPDATE_INTERVAL has passed - try to update the text.
          match extract_fps diagnostics with
          | none => some { s with controllers := [(marker, ticked)] }
          | some fps =>
            match s.scene with
            | [(text_e, txt)] =>
              match txt.sections with
              | sec0 :: sec1 :: rest =>
                some { controllers := [(marker, ticked)],
                       scene := [(text_e,
                         { sections := sec0 :: { sec1 with value := format_fps fps } :: rest })],
                       next_entity := s.next_entity }
              | _ => none
            | _ => none
  | _ => none

/-- The external control surface: pause or unpause the timer through a
query for `Timer` filtered by `ScreenDiagsTimer`. -/
def set_paused (s : State) (p : Bool) : State :=
  { s with controllers := s.controllers.map (fun mt => (mt.1, { mt.2 with paused := p })) }

/-- One external event between/at ticks: a tick of the `update` system, or
a host collaborator toggling the pause flag. -/
inductive Action where
  | tick (delta : Nat) (diag : Diagnostics)
  | togglePause (p : Bool)

/-- Run a sequence of actions; `none` as soon as a tick panics. -/
def run_actions (s : State) : List Action → Option State
  | [] => some s
  | Action.tick delta d :: rest =>
    (update delta d s).bind fun s1 => run_actions s1 rest
  | Action.togglePause p :: rest => run_actions (set_paused s p) rest

/-- Run one tick per listed `Diagnostics` reading, all with the same
`delta`, and count the ticks on which the scene (hence the displayed text)
changed. -/
def run_ticks (delta : Nat) (s : State) : List Diagnostics → Option (State × Nat)
  | [] => some (s, 0)
  | d :: ds =>
    match update delta d s with
    | none => none
    | some s1 =>
      match run_ticks delta s1 ds with
      | none => none
      | some (sf, c) => some (sf, (if s1.scene = s.scene then 0 else 1) + c)

/-- The value segment currently displayed: the second section's text of the
unique on-screen element, when it exists. -/
def displayed_value (s : State) : Option String :=
  match s.scene with
  | [(_, txt)] => (txt.sections[1]?).map (fun sec => sec.value)
  | _ => none

/-- The five guard conditions of the spec's decision table, in its priority
order, evaluated on the observations the tick makes: the recorded display
reference, the pause flag, and whether the advanced timer just finished. -/
def spec_guards (marker : ScreenDiagsTimer) (timer : Timer) (delta : Nat) : List Bool :=
  [ marker.text_entity.isNone && timer.paused,
    marker.text_entity.isNone && !timer.paused,
    marker.text_entity.isSome && timer.paused,
    marker.text_entity.isSome && !timer.paused && !(Timer.tick timer delta).just_finished,
    marker.text_entity.isSome && !timer.paused && (Timer.tick timer delta).just_finished ]

/-! ### Concrete fixtures used by witnesses and counterexamples -/

/-- A `Diagnostics` store in which the FPS diagnostic is not registered. -/
def dNone : Diagnostics := { fps := none }

/-- FPS diagnostic registered but with no measurements yet. -/
def dGap : Diagnostics := { fps := some { average := none } }

/-- FPS diagnostic registered with rolling average `v`. -/
def dVal (v : Rat) : Diagnostics := { fps := some { average := some v } }

/-- The style `spawn_text` gives both sections. -/
def style0 : TextStyle :=
  { font := "fonts/screen-diags-font.ttf", font_size := FONT_SIZE, color := FONT_COLOR }

/-- An on-screen text currently displaying the value `"60"`. -/
def txt60 : Text := { sections := [ { value := "FPS: ", style := style0 },
                                    { value := "60", style := style0 } ] }

/-- An unpaused repeating timer 0.9 s into its 1 s interval. -/
def timer900 : Timer :=
  { duration := 1000000000, elapsed := 900000000, repeating := true,
    paused := false, finished := false, times_finished := 0 }

/-- A visible, unpaused state displaying `"60"` on entity 7. -/
def V60 : State := { controllers := [({ text_entity := some 7 }, timer900)],
                     scene := [(7, txt60)], next_entity := 8 }

/-! ### Timer lemmas -/

theorem Timer.tick_paused (t : Timer) (delta : Nat) :
    (Timer.tick t delta).paused = t.paused := by
  simp only [Timer.tick]
  split_ifs <;> rfl

theorem Timer.tick_repeating_pres (t : Timer) (delta : Nat) :
    (Timer.tick t delta).repeating = t.repeating := by
  simp only [Timer.tick]
  split_ifs <;> rfl

theorem Timer.tick_duration_pres (t : Timer) (delta : Nat) :
    (Timer.tick t delta).duration = t.duration := by
  simp only [Timer.tick]
  split_ifs <;> rfl

theorem Timer.tick_of_repeating (t : Timer) (delta : Nat)
    (hp : t.paused = false) (hr : t.repeating = true) :
    Timer.tick t delta =
      if t.duration ≤ t.elapsed + delta then
        { t with elapsed := (t.elapsed + delta) % t.duration, finished := true,
                 times_finished := (t.elapsed + delta) / t.duration }
      else
        { t with elapsed := t.elapsed + delta, finished := false, times_finished := 0 } := by
  unfold Timer.tick
  rw [hp, hr]
  simp

theorem Timer.tick_just_finished_iff (t : Timer) (delta : Nat)
    (hp : t.paused = false) (hr : t.repeating = true) (hd : 0 < t.duration) :
    (Timer.tick t delta).just_finished = true ↔ t.duration ≤ t.elapsed + delta := by
  rw [Timer.tick_of_repeating t delta hp hr]
  by_cases h : t.duration ≤ t.elapsed + delta
  · simp only [h, if_pos]
    simp only [Timer.just_finished, ne_eq, bne_iff_ne, iff_true, h]
    have h1 : 1 ≤ (t.elapsed + delta) / t.duration := (Nat.one_le_div_iff hd).mpr h
    omega
  · simp only [h, if_neg, not_false_iff]
    simp only [Timer.just_finished, bne_self_eq_false]
    simp [h]

/-! ### Per-branch equations for `update` -/

theorem update_eq_of_no_singleton (delta : Nat) (d : Diagnostics) (s : State)
    (h : s.controllers.length ≠ 1) : update delta d s = none := by
  rcases s with ⟨cs, sc, ne⟩
  match cs with
  | [] => rfl
  | [(marker, timer)] => simp at h
  | (m1, t1) :: (m2, t2) :: rest => rfl

theorem update_eq_of_none_paused (delta : Nat) (d : Diagnostics) (s : State)
    (marker : ScreenDiagsTimer) (timer : Timer)
    (hc : s.controllers = [(marker, timer)])
    (hm : marker.text_entity = none) (hp : timer.paused = true) :
    update delta d s = some s := by
  rcases s with ⟨cs, sc, ne⟩
  dsimp only at hc
  subst hc
  simp only [update, hm, hp, if_pos]

theorem update_eq_of_none_unpaused (delta : Nat) (d : Diagnostics) (s : State)
    (marker : ScreenDiagsTimer) (timer : Timer)
    (hc : s.controllers = [(marker, timer)])
    (hm : marker.text_entity = none) (hp : timer.paused = false) :
    update delta d s =
      some { controllers := [({ text_entity := some s.next_entity }, timer)],
             scene := s.scene ++
               [spawn_text s.next_entity ((extract_fps d).map format_fps)],
             next_entity := s.next_entity + 1 } := by
  rcases s with ⟨cs, sc, ne⟩
  dsimp only at hc
  subst hc
  simp only [update, hm, hp, Bool.false_eq_true, if_neg, not_false_iff]

theorem update_eq_of_some_paused (delta : Nat) (d : Diagnostics) (s : State)
    (marker : ScreenDiagsTimer) (timer : Timer) (e : Entity)
    (hc : s.controllers = [(marker, timer)])
    (hm : marker.text_entity = some e) (hp : timer.paused = true) :
    update delta d s =
      some { controllers := [({ text_entity := none }, timer)],
             scene := s.scene.filter (fun p => p.1 != e),
             next_entity := s.next_entity } := by
  rcases s with ⟨cs, sc, ne⟩
  dsimp only at hc
  subst hc
  simp only [update, hm, hp, if_pos]

theorem update_eq_of_not_finished (delta : Nat) (d : Diagnostics) (s : State)
    (marker : ScreenDiagsTimer) (timer : Timer) (e : Entity)
    (hc : s.controllers = [(marker, timer)])
    (hm : marker.text_entity = some e) (hp : timer.paused = false)
    (hf : (Timer.tick timer delta).just_finished = false) :
    update delta d s = some { s with controllers := [(marker, Timer.tick timer delta)] } := by
  rcases s with ⟨cs, sc, ne⟩
  dsimp only at hc
  subst hc
  simp only [update, hm, hp, hf, Bool.false_eq_true, if_neg, not_false_iff,
    Bool.not_false, if_pos]

theorem update_eq_of_finished_gap (delta : Nat) (d : Diagnostics) (s : State)
    (marker : ScreenDiagsTimer) (timer : Timer) (e : Entity)
    (hc : s.controllers = [(marker, timer)])
    (hm : marker.text_entity = some e) (hp : timer.paused = false)
    (hf : (Timer.tick timer delta).just_finished = true)
    (hgap : extract_fps d = none) :
    update delta d s = some { s with controllers := [(marker, Timer.tick timer delta)] } := by
  rcases s with ⟨cs, sc, ne⟩
  dsimp only at hc
  subst hc
  simp only [update, hm, hp, hf, hgap, Bool.false_eq_true, if_neg, not_false_iff,
    Bool.not_true, if_neg]

theorem update_eq_of_finished_value (delta : Nat) (d : Diagnostics) (s : State)
    (marker : ScreenDiagsTimer) (timer : Timer) (e te : Entity)
    (v : Rat) (txt : Text) (sec0 sec1 : TextSection) (rest : List TextSection)
    (hc : s.controllers = [(marker, timer)])
    (hm : marker.text_entity = some e) (hp : timer.paused = false)
    (hf : (Timer.tick timer delta).just_finished = true)
    (hv : extract_fps d = some v)
    (hs : s.scene = [(te, txt)])
    (hsec : txt.sections = sec0 :: sec1 :: rest) :
    update delta d s =
      some { controllers := [(marker, Timer.tick timer delta)],
             scene := [(te, { sections := sec0 :: { sec1 with value := format_fps v } :: rest })],
             next_entity := s.next_entity } := by
  rcases s with ⟨cs, sc, ne⟩
  dsimp only at hc hs ⊢
  subst hc
  subst hs
  simp only [update, hm, hp, hf, hv, hsec, Bool.false_eq_true, if_neg, not_false_iff,
    Bool.not_true, if_neg]

/-! ### Additional fixtures -/

/-- A world with no plugin entities at all. -/
def emptyState : State := { controllers := [], scene := [], next_entity := 0 }

/-- The timer of `setup`'s controller after being paused externally. -/
def pausedTimer0 : Timer :=
  { duration := 1000000000, elapsed := 0, repeating := true,
    paused := true, finished := false, times_finished := 0 }

/-- The state reached from `setup emptyState` by pausing and then ticking once. -/
def S1 : State :=
  { controllers := [({ text_entity := none }, pausedTimer0)], scene := [], next_entity := 1 }

/-! ### Claim theorems -/

/-- C4: `extract_fps` returns `none` exactly when the FPS diagnostic is not
registered; when it is registered but its rolling average is not yet
available, `unwrap_or_default()` turns the gap into `Some 0`, never `none`. -/
theorem extract_fps_none_iff_unregistered :
    (∀ d : Diagnostics, (extract_fps d = none ↔ d.fps = none))
    ∧ (∀ diag : Diagnostic, extract_fps { fps := some diag } = some (diag.average.getD 0))
    ∧ extract_fps { fps := some { average := none } } = some 0 := by
  refine ⟨fun d => ?_, fun diag => rfl, rfl⟩
  cases h : d.fps <;> simp [extract_fps, h]

/-- C6: the bootstrap `setup` spawns the element unconditionally with no
metric sampled (`spawn_text` is called with `None`), so the first displayed
value segment is always the placeholder `"..."`; `setup` never reads the
`Diagnostics` resource at all. -/
theorem setup_spawns_placeholder (s : State) :
    (setup s).controllers = s.controllers ++
      [({ text_entity := some s.next_entity }, Timer.new UPDATE_INTERVAL true)]
    ∧ (setup s).scene = s.scene ++
      [(s.next_entity, { sections := [ { value := "FPS: ", style := style0 },
                                       { value := "...", style := style0 } ] })]
    ∧ displayed_value (setup emptyState) = some "..." :=
  ⟨rfl, rfl, by decide⟩

/-- C10: when the singleton `(ScreenDiagsTimer, Timer)` entity is absent or
duplicated, `timer_query.single_mut()` panics (modelled `none`): the tick is
never a silent no-op and the state is never silently recreated. -/
theorem update_panics_without_singleton (delta : Nat) (d : Diagnostics) (s : State)
    (h : s.controllers = [] ∨ 2 ≤ s.controllers.length) :
    update delta d s = none := by
  apply update_eq_of_no_singleton
  rcases h with h | h
  · rw [h]; simp
  · omega

/-- Witness for C10: a world without the controller makes the tick panic. -/
theorem update_panics_without_singleton_witness :
    (emptyState.controllers = [] ∨ 2 ≤ emptyState.controllers.length)
    ∧ update 100000000 dNone emptyState = none :=
  ⟨Or.inl rfl, update_panics_without_singleton 100000000 dNone emptyState (Or.inl rfl)⟩

/-- C3: when the element exists, the timer is unpaused and the interval has
elapsed (transition 5) but the metric source yields no value, the scene —
hence the displayed value text — is exactly what it was before the tick. -/
theorem refresh_gap_keeps_text (delta : Nat) (d : Diagnostics) (s : State)
    (marker : ScreenDiagsTimer) (timer : Timer) (e : Entity)
    (hc : s.controllers = [(marker, timer)])
    (hm : marker.text_entity = some e) (hp : timer.paused = false)
    (hf : (Timer.tick timer delta).just_finished = true)
    (hgap : extract_fps d = none) :
    ∃ s1, update delta d s = some s1 ∧ s1.scene = s.scene
      ∧ displayed_value s1 = displayed_value s := by
  refine ⟨{ s with controllers := [(marker, Timer.tick timer delta)] },
    update_eq_of_finished_gap delta d s marker timer e hc hm hp hf hgap, rfl, ?_⟩
  rcases s with ⟨cs, sc, ne⟩
  rfl

/-- Witness for C3: with `"60"` on screen, a refresh tick during a metric
gap still displays `"60"`. -/
theorem refresh_gap_keeps_text_witness :
    V60.controllers = [({ text_entity := some 7 }, timer900)]
    ∧ ({ text_entity := some 7 } : ScreenDiagsTimer).text_entity = some 7
    ∧ timer900.paused = false
    ∧ (Timer.tick timer900 100000000).just_finished = true
    ∧ extract_fps dNone = none
    ∧ displayed_value V60 = some "60"
    ∧ ∃ s1, update 100000000 dNone V60 = some s1 ∧ s1.scene = V60.scene
        ∧ displayed_value s1 = displayed_value V60 :=
  ⟨rfl, rfl, rfl, by decide, rfl, by decide,
   refresh_gap_keeps_text 100000000 dNone V60 _ _ 7 rfl rfl rfl (by decide) rfl⟩

/-- C8: a value refresh (transition 5) rewrites only `sections[1].value`:
the label section is kept whole and the value section keeps its style
(font handle, font size, color). -/
theorem refresh_updates_only_value_segment (delta : Nat) (d : Diagnostics) (s : State)
    (marker : ScreenDiagsTimer) (timer : Timer) (e te : Entity) (v : Rat)
    (txt : Text) (sec0 sec1 : TextSection)
    (hc : s.controllers = [(marker, timer)])
    (hm : marker.text_entity = some e) (hp : timer.paused = false)
    (hf : (Timer.tick timer delta).just_finished = true)
    (hv : extract_fps d = some v)
    (hs : s.scene = [(te, txt)]) (hsec : txt.sections = [sec0, sec1]) :
    update delta d s =
      some { controllers := [(marker, Timer.tick timer delta)],
             scene := [(te, { sections :=
               [sec0, { value := format_fps v, style := sec1.style }] })],
             next_entity := s.next_entity } := by
  rw [update_eq_of_finished_value delta d s marker timer e te v txt sec0 sec1 [] hc hm hp hf hv hs hsec]

/-- Witness for C8: refreshing `"60"` to `"50"` keeps the label section and
both styles. -/
theorem refresh_updates_only_value_segment_witness :
    V60.controllers = [({ text_entity := some 7 }, timer900)]
    ∧ extract_fps (dVal 50) = some 50
    ∧ V60.scene = [(7, txt60)]
    ∧ txt60.sections = [ { value := "FPS: ", style := style0 },
                         { value := "60", style := style0 } ]
    ∧ update 100000000 (dVal 50) V60 =
        some { controllers := [({ text_entity := some 7 }, Timer.tick timer900 100000000)],
               scene := [(7, { sections := [ { value := "FPS: ", style := style0 },
                 { value := format_fps 50,
                   style := ({ value := "60", style := style0 } : TextSection).style } ] })],
               next_entity := V60.next_entity } :=
  ⟨rfl, rfl, rfl, rfl,
   refresh_updates_only_value_segment 100000000 (dVal 50) V60 _ _ 7 7 50 txt60 _ _
     rfl rfl rfl (by decide) rfl rfl rfl⟩

/-! ### C2: the displayRef/paused invariant -/

theorem update_some_invariant (delta : Nat) (d : Diagnostics) (s s1 : State)
    (h : update delta d s = some s1) :
    ∀ (marker : ScreenDiagsTimer) (timer : Timer), s1.controllers = [(marker, timer)] →
      (marker.text_entity = none ↔ timer.paused = true) := by
  intro marker timer hct
  rcases s with ⟨cs, sc, ne⟩
  simp only [update] at h
  repeat' split at h
  all_goals first
    | exact Option.noConfusion h
    | (injection h with h1; subst h1;
       simp only [List.cons.injEq, Prod.mk.injEq, and_true] at hct;
       obtain ⟨h2, h3⟩ := hct; subst h2; subst h3;
       simp_all [Timer.tick_paused])

theorem run_actions_append (s : State) (a b : List Action) :
    run_actions s (a ++ b) = (run_actions s a).bind (fun s1 => run_actions s1 b) := by
  induction a generalizing s with
  | nil => simp [run_actions]
  | cons act rest ih =>
    cases act with
    | tick delta diag =>
      simp only [List.cons_append, run_actions]
      cases update delta diag s <;> simp [ih]
    | togglePause p => simp [run_actions, ih]

/-- C2: after any sequence of ticks and externally applied pause toggles
whose last event is a completed tick, the recorded display reference is
`None` exactly when the pause flag observed by that tick was set: a
mismatch introduced between ticks is corrected by the tick that sees it. -/
theorem displayRef_none_iff_paused (acts : List Action) (delta : Nat) (d : Diagnostics)
    (s0 s1 : State) (h : run_actions s0 (acts ++ [Action.tick delta d]) = some s1)
    (marker : ScreenDiagsTimer) (timer : Timer)
    (hct : s1.controllers = [(marker, timer)]) :
    marker.text_entity = none ↔ timer.paused = true := by
  rw [run_actions_append] at h
  rcases hmid : run_actions s0 acts with _ | smid
  · rw [hmid] at h; exact absurd h (by simp)
  · rw [hmid] at h
    simp only [Option.some_bind, run_actions] at h
    rcases hup : update delta d smid with _ | s2
    · rw [hup] at h; exact absurd h (by simp)
    · rw [hup] at h
      simp only [Option.some_bind, run_actions, Option.some.injEq] at h
      exact update_some_invariant delta d smid s1 (h ▸ hup) marker timer hct

/-- Witness for C2: pausing and then ticking from the bootstrapped state
leaves `text_entity = none` with the pause flag set. -/
theorem displayRef_none_iff_paused_witness :
    run_actions (setup emptyState) ([Action.togglePause true] ++ [Action.tick 100000000 dNone])
      = some S1
    ∧ S1.controllers = [({ text_entity := none }, pausedTimer0)]
    ∧ (({ text_entity := none } : ScreenDiagsTimer).text_entity = none
        ↔ pausedTimer0.paused = true) :=
  ⟨by decide, rfl,
   displayRef_none_iff_paused [Action.togglePause true] 100000000 dNone
     (setup emptyState) S1 (by decide) _ _ rfl⟩

/-! ### C1: the decision table -/

/-- C1: on every tick with the singleton state present — no assumption on
the scene, so hidden states (empty scene) are covered — each tick takes
exactly one of the five transitions of the spec's decision table, selected
by first match in priority order: exactly one guard of `spec_guards`
holds, and under each guard `update` performs precisely that transition's
action (no-op; sample and spawn recording the reference; recursive despawn
clearing the reference; advance the timer only; sample and refresh the
text). Only the refresh-with-value action is stated under the scene shape
the code itself forces there (`text_query.single_mut()` and `sections[1]`
panic otherwise). -/
theorem update_five_transitions (delta : Nat) (d : Diagnostics) (s : State)
    (marker : ScreenDiagsTimer) (timer : Timer)
    (hc : s.controllers = [(marker, timer)]) :
    (spec_guards marker timer delta).count true = 1
    ∧ (marker.text_entity = none → timer.paused = true → update delta d s = some s)
    ∧ (marker.text_entity = none → timer.paused = false →
        update delta d s =
          some { controllers := [({ text_entity := some s.next_entity }, timer)],
                 scene := s.scene ++
                   [spawn_text s.next_entity ((extract_fps d).map format_fps)],
                 next_entity := s.next_entity + 1 })
    ∧ (∀ e, marker.text_entity = some e → timer.paused = true →
        update delta d s =
          some { controllers := [({ text_entity := none }, timer)],
                 scene := s.scene.filter (fun p => p.1 != e),
                 next_entity := s.next_entity })
    ∧ (∀ e, marker.text_entity = some e → timer.paused = false →
        (Timer.tick timer delta).just_finished = false →
        update delta d s = some { s with controllers := [(marker, Timer.tick timer delta)] })
    ∧ (∀ e, marker.text_entity = some e → timer.paused = false →
        (Timer.tick timer delta).just_finished = true →
        ((extract_fps d = none →
           update delta d s = some { s with controllers := [(marker, Timer.tick timer delta)] })
         ∧ (∀ v, extract_fps d = some v →
             ∀ te txt, s.scene = [(te, txt)] →
             ∀ sec0 sec1, txt.sections = [sec0, sec1] →
             update delta d s =
               some { controllers := [(marker, Timer.tick timer delta)],
                      scene := [(te, { sections :=
                        [sec0, { sec1 with value := format_fps v }] })],
                      next_entity := s.next_entity }))) := by
  refine ⟨?_,
    fun hm hp => update_eq_of_none_paused delta d s marker timer hc hm hp,
    fun hm hp => update_eq_of_none_unpaused delta d s marker timer hc hm hp,
    fun e hm hp => update_eq_of_some_paused delta d s marker timer e hc hm hp,
    fun e hm hp hf => update_eq_of_not_finished delta d s marker timer e hc hm hp hf,
    fun e hm hp hf =>
      ⟨fun hgap => update_eq_of_finished_gap delta d s marker timer e hc hm hp hf hgap,
       fun v hv te txt hs sec0 sec1 hsec =>
         update_eq_of_finished_value delta d s marker timer e te v txt
           sec0 sec1 [] hc hm hp hf hv hs hsec⟩⟩
  cases hm : marker.text_entity <;> cases hp : timer.paused <;>
    cases hf : (Timer.tick timer delta).just_finished <;>
    simp [spec_guards, hm, hp, hf, List.count_cons]

/-- Witness for C1, taken at a reachable hidden state (empty scene, no
recorded element): the singleton hypothesis holds, exactly one guard of
the table holds there, and the tick is the claimed no-op. -/
theorem update_five_transitions_witness :
    S1.controllers = [({ text_entity := none }, pausedTimer0)]
    ∧ (spec_guards { text_entity := none } pausedTimer0 100000000).count true = 1
    ∧ update 100000000 dNone S1 = some S1 :=
  ⟨rfl,
   (update_five_transitions 100000000 dNone S1 _ _ rfl).1,
   (update_five_transitions 100000000 dNone S1 _ _ rfl).2.1 rfl rfl⟩

/-! ### C5: respawn after pause/unpause -/

/-- A hidden, unpaused state (element already despawned, flag cleared). -/
def H9 : State :=
  { controllers := [({ text_entity := none }, timer900)], scene := [], next_entity := 9 }

/-- Counterexample to C5 as stated: starting from a visible state showing
`"60"`, pausing, ticking (despawn), unpausing and ticking again while the
metric source yields `50` respawns the element displaying `"50"` — the
formatted sampled value, not the placeholder `"..."`. -/
theorem unpause_respawn_counterexample :
    (run_actions V60 [Action.togglePause true, Action.tick 100000000 dNone,
        Action.togglePause false, Action.tick 100000000 (dVal 50)]).bind displayed_value
      = some "50"
    ∧ some "50" ≠ some ("..." : String) :=
  ⟨by decide, by decide⟩

/-- C5 (amended): after a despawn-by-pause, the next unpaused tick spawns a
fresh element — entity id taken from the allocator, which is then advanced,
and the reference re-recorded — whose value segment is the formatted
sampled metric value when one is available and the placeholder `"..."` only
when the metric source yields none; it never resurrects the prior
element's text. -/
theorem unpause_respawns_fresh (delta : Nat) (d : Diagnostics) (s : State)
    (marker : ScreenDiagsTimer) (timer : Timer)
    (hc : s.controllers = [(marker, timer)])
    (hm : marker.text_entity = none) (hp : timer.paused = false) :
    update delta d s =
      some { controllers := [({ text_entity := some s.next_entity }, timer)],
             scene := s.scene ++
               [(s.next_entity,
                 { sections := [ { value := "FPS: ", style := style0 },
                   { value := ((extract_fps d).map format_fps).getD "...",
                     style := style0 } ] })],
             next_entity := s.next_entity + 1 } := by
  rw [update_eq_of_none_unpaused delta d s marker timer hc hm hp]
  rfl

/-- Witness for C5 (amended): from a hidden unpaused state with the metric
reading `50`, the tick spawns entity 9 displaying `"50"` and bumps the
allocator. -/
theorem unpause_respawns_fresh_witness :
    H9.controllers = [({ text_entity := none }, timer900)]
    ∧ ({ text_entity := none } : ScreenDiagsTimer).text_entity = none
    ∧ timer900.paused = false
    ∧ update 100000000 (dVal 50) H9 =
        some { controllers := [({ text_entity := some H9.next_entity }, timer900)],
               scene := H9.scene ++
                 [(H9.next_entity,
                   { sections := [ { value := "FPS: ", style := style0 },
                     { value := ((extract_fps (dVal 50)).map format_fps).getD "...",
                       style := style0 } ] })],
               next_entity := H9.next_entity + 1 } :=
  ⟨rfl, rfl, rfl, unpause_respawns_fresh 100000000 (dVal 50) H9 _ _ rfl rfl rfl⟩

/-! ### C9: value formatting -/

theorem fmtRound0_nearest (q : Rat) : |q - ((fmtRound0 q : Int) : Rat)| ≤ 1 / 2 := by
  have hdenQ : (0:ℚ) < (q.den : ℚ) := by exact_mod_cast q.den_pos
  have hnum : q * (q.den : ℚ) = (q.num : ℚ) := by
    nth_rewrite 1 [← Rat.num_div_den q]
    exact div_mul_cancel₀ _ (ne_of_gt hdenQ)
  have hfl : ((⌊q⌋ : Int) : ℚ) ≤ q := Int.floor_le q
  have hfu : q < ((⌊q⌋ : Int) : ℚ) + 1 := Int.lt_floor_add_one q
  have hrQ : ((q.num - ⌊q⌋ * (q.den : Int) : Int) : ℚ)
      = (q - ((⌊q⌋ : Int) : ℚ)) * (q.den : ℚ) := by
    push_cast
    rw [sub_mul, hnum]
  simp only [fmtRound0]
  split_ifs with h1 h2 h3
  · have h1Q : (q.den : ℚ) < 2 * ((q - ((⌊q⌋ : Int) : ℚ)) * (q.den : ℚ)) := by
      rw [← hrQ]
      exact_mod_cast h1
    have hfrac : 1 / 2 < q - ((⌊q⌋ : Int) : ℚ) := by
      by_contra hcon
      push_neg at hcon
      have hmul := mul_le_mul_of_nonneg_right hcon (le_of_lt hdenQ)
      linarith
    rw [abs_le]
    push_cast
    constructor <;> linarith
  · have h2Q : 2 * ((q - ((⌊q⌋ : Int) : ℚ)) * (q.den : ℚ)) < (q.den : ℚ) := by
      rw [← hrQ]
      exact_mod_cast h2
    have hfrac : q - ((⌊q⌋ : Int) : ℚ) < 1 / 2 := by
      by_contra hcon
      push_neg at hcon
      have hmul := mul_le_mul_of_nonneg_right hcon (le_of_lt hdenQ)
      linarith
    rw [abs_le]
    constructor <;> linarith
  all_goals {
    have hA : 2 * ((q - ((⌊q⌋ : Int) : ℚ)) * (q.den : ℚ)) ≤ (q.den : ℚ) := by
      rw [← hrQ]
      exact_mod_cast not_lt.mp h1
    have hB : (q.den : ℚ) ≤ 2 * ((q - ((⌊q⌋ : Int) : ℚ)) * (q.den : ℚ)) := by
      rw [← hrQ]
      exact_mod_cast not_lt.mp h2
    have heq : 2 * ((q - ((⌊q⌋ : Int) : ℚ)) * (q.den : ℚ)) = (q.den : ℚ) :=
      le_antisymm hA hB
    have heq3 : (2 * (q - ((⌊q⌋ : Int) : ℚ)) - 1) * (q.den : ℚ) = 0 := by
      linear_combination heq
    rcases mul_eq_zero.mp heq3 with h0 | h0
    · have hfrac : q - ((⌊q⌋ : Int) : ℚ) = 1 / 2 := by linarith
      rw [abs_le]
      push_cast
      constructor <;> linarith
    · exact absurd h0 (ne_of_gt hdenQ) }

/-- C9: `format_fps` renders with zero decimal places by rounding the exact
value to a nearest integer (ties to even, locale-independently): `62.7`
formats to `"63"`, `59.6` to `"60"`; and spawning with no available metric
value displays `"..."` while spawning with `59.6` displays `"60"`. -/
theorem format_fps_rounds_nearest :
    (∀ q : Rat, |q - ((fmtRound0 q : Int) : Rat)| ≤ 1 / 2)
    ∧ format_fps (627 / 10) = "63"
    ∧ format_fps (596 / 10) = "60"
    ∧ (∀ n : Entity, (spawn_text n none).2.sections.map TextSection.value = ["FPS: ", "..."])
    ∧ (∀ n : Entity, (spawn_text n (some (format_fps (596 / 10)))).2.sections.map
        TextSection.value = ["FPS: ", "60"]) := by
  have h627 : (627 / 10 : ℚ) = Rat.divInt 627 10 := by
    rw [Rat.divInt_eq_div]
    norm_num
  have h596 : (596 / 10 : ℚ) = Rat.divInt 596 10 := by
    rw [Rat.divInt_eq_div]
    norm_num
  have h63 : format_fps (627 / 10) = "63" := by
    rw [h627]
    decide
  have h60 : format_fps (596 / 10) = "60" := by
    rw [h596]
    decide
  refine ⟨fmtRound0_nearest, h63, h60, fun n => rfl, fun n => ?_⟩
  rw [h60]
  rfl

/-! ### C7: throttling -/

theorem run_ticks_cons (delta : Nat) (d : Diagnostics) (ds : List Diagnostics)
    (s s1 sf : State) (c : Nat)
    (h : update delta d s = some s1) (h2 : run_ticks delta s1 ds = some (sf, c)) :
    run_ticks delta s (d :: ds) = some (sf, (if s1.scene = s.scene then 0 else 1) + c) := by
  simp only [run_ticks, h, h2]

theorem update_visible_step (delta : Nat) (d : Diagnostics) (s : State)
    (marker : ScreenDiagsTimer) (timer : Timer) (e te : Entity) (txt : Text)
    (hc : s.controllers = [(marker, timer)])
    (hm : marker.text_entity = some e) (hp : timer.paused = false)
    (hs : s.scene = [(te, txt)]) (hl : txt.sections.length = 2) :
    ∃ s1, update delta d s = some s1
      ∧ s1.controllers = [(marker, Timer.tick timer delta)]
      ∧ ((Timer.tick timer delta).just_finished = false → s1.scene = s.scene)
      ∧ ∃ txt1, s1.scene = [(te, txt1)] ∧ txt1.sections.length = 2 := by
  cases hf : (Timer.tick timer delta).just_finished
  · exact ⟨_, update_eq_of_not_finished delta d s marker timer e hc hm hp hf,
      rfl, fun _ => rfl, txt, hs, hl⟩
  · cases hgap : extract_fps d with
    | none =>
      exact ⟨_, update_eq_of_finished_gap delta d s marker timer e hc hm hp hf hgap,
        rfl, fun _ => rfl, txt, hs, hl⟩
    | some v =>
      obtain ⟨sec0, sec1, hsec⟩ := List.length_eq_two.mp hl
      refine ⟨_, update_eq_of_finished_value delta d s marker timer e te v txt
        sec0 sec1 [] hc hm hp hf hgap hs hsec, rfl, ?_,
        ⟨{ sections := [sec0, { sec1 with value := format_fps v }] }, rfl, rfl⟩⟩
      intro hcon
      exact Bool.noConfusion hcon

theorem run_ticks_bound (ds : List Diagnostics) :
    ∀ (s : State) (marker : ScreenDiagsTimer) (timer : Timer) (e te : Entity) (txt : Text),
      s.controllers = [(marker, timer)] →
      marker.text_entity = some e →
      timer.paused = false → timer.repeating = true →
      timer.duration = 1000000000 → timer.elapsed < 1000000000 →
      s.scene = [(te, txt)] → txt.sections.length = 2 →
      ∃ sf c, run_ticks 100000000 s ds = some (sf, c)
        ∧ c ≤ (timer.elapsed + 100000000 * ds.length) / 1000000000 := by
  induction ds with
  | nil =>
    intro s marker timer e te txt hc hm hp hr hd he hs hl
    exact ⟨s, 0, rfl, Nat.zero_le _⟩
  | cons d ds ih =>
    intro s marker timer e te txt hc hm hp hr hd he hs hl
    have hd0 : 0 < timer.duration := by omega
    have htick := Timer.tick_of_repeating timer 100000000 hp hr
    have hiff := Timer.tick_just_finished_iff timer 100000000 hp hr hd0
    have h1p : (Timer.tick timer 100000000).paused = false := by
      rw [Timer.tick_paused]; exact hp
    have h1r : (Timer.tick timer 100000000).repeating = true := by
      rw [Timer.tick_repeating_pres]; exact hr
    have h1d : (Timer.tick timer 100000000).duration = 1000000000 := by
      rw [Timer.tick_duration_pres]; exact hd
    obtain ⟨s1, hupd, hc1, hsceneq, txt1, hs1, hl1⟩ :=
      update_visible_step 100000000 d s marker timer e te txt hc hm hp hs hl
    have h1elt : (Timer.tick timer 100000000).elapsed < 1000000000 := by
      by_cases hfin : 1000000000 ≤ timer.elapsed + 100000000
      · rw [htick, if_pos (by omega : timer.duration ≤ timer.elapsed + 100000000)]
        dsimp only
        rw [hd]
        exact Nat.mod_lt _ (by omega)
      · rw [htick, if_neg (by omega : ¬ timer.duration ≤ timer.elapsed + 100000000)]
        dsimp only
        omega
    obtain ⟨sf, c, hrun, hb⟩ :=
      ih s1 marker (Timer.tick timer 100000000) e te txt1 hc1 hm h1p h1r h1d h1elt hs1 hl1
    refine ⟨sf, _, run_ticks_cons 100000000 d ds s s1 sf c hupd hrun, ?_⟩
    by_cases hfin : 1000000000 ≤ timer.elapsed + 100000000
    · have h1e : (Timer.tick timer 100000000).elapsed
          = (timer.elapsed + 100000000) % 1000000000 := by
        rw [htick, if_pos (by omega : timer.duration ≤ timer.elapsed + 100000000)]
        dsimp only
        rw [hd]
      have hcontrib : (if s1.scene = s.scene then 0 else 1) ≤ 1 := by
        split_ifs <;> omega
      rw [h1e] at hb
      simp only [List.length_cons] at hb ⊢
      omega
    · have hjf : (Timer.tick timer 100000000).just_finished = false := by
        cases hb2 : (Timer.tick timer 100000000).just_finished
        · rfl
        · exact absurd (hiff.mp hb2) (by omega)
      have h1e : (Timer.tick timer 100000000).elapsed = timer.elapsed + 100000000 := by
        rw [htick, if_neg (by omega : ¬ timer.duration ≤ timer.elapsed + 100000000)]
      rw [hsceneq hjf, if_pos rfl]
      rw [h1e] at hb
      simp only [List.length_cons] at hb ⊢
      omega

/-- C7: while the element exists and the timer is unpaused, with the 1 s
refresh interval and ticks every 100 ms, the scene — hence the displayed
text — changes on at most `(elapsed + 100ms·n) / 1s` of any `n` consecutive
ticks, whatever the metric source yields on each tick; in particular at
most once in any 10 consecutive ticks. -/
theorem update_throttles_refreshes (s : State)
    (marker : ScreenDiagsTimer) (timer : Timer) (e te : Entity) (txt : Text)
    (hc : s.controllers = [(marker, timer)])
    (hm : marker.text_entity = some e)
    (hp : timer.paused = false) (hr : timer.repeating = true)
    (hd : timer.duration = 1000000000) (he : timer.elapsed < 1000000000)
    (hs : s.scene = [(te, txt)]) (hl : txt.sections.length = 2) :
    (∀ ds : List Diagnostics, ∃ sf c, run_ticks 100000000 s ds = some (sf, c)
      ∧ c ≤ (timer.elapsed + 100000000 * ds.length) / 1000000000)
    ∧ (∀ ds : List Diagnostics, ds.length = 10 →
        ∃ sf c, run_ticks 100000000 s ds = some (sf, c) ∧ c ≤ 1) := by
  refine ⟨fun ds => run_ticks_bound ds s marker timer e te txt hc hm hp hr hd he hs hl,
    fun ds hlen => ?_⟩
  obtain ⟨sf, c, hrun, hb⟩ := run_ticks_bound ds s marker timer e te txt hc hm hp hr hd he hs hl
  refine ⟨sf, c, hrun, ?_⟩
  rw [hlen] at hb
  omega

/-- Witness for C7: ten 100 ms ticks from the fixture state, with the
metric value changing every tick, repaint the text at most once. -/
theorem update_throttles_refreshes_witness :
    V60.controllers = [({ text_entity := some 7 }, timer900)]
    ∧ V60.scene = [(7, txt60)]
    ∧ txt60.sections.length = 2
    ∧ ∃ sf c, run_ticks 100000000 V60
        [dVal 41, dVal 42, dVal 43, dVal 44, dVal 45,
         dVal 46, dVal 47, dVal 48, dVal 49, dVal 50] = some (sf, c) ∧ c ≤ 1 :=
  ⟨rfl, rfl, rfl,
   (update_throttles_refreshes V60 _ _ 7 7 txt60 rfl rfl rfl rfl rfl (by decide) rfl rfl).2
     [dVal 41, dVal 42, dVal 43, dVal 44, dVal 45,
      dVal 46, dVal 47, dVal 48, dVal 49, dVal 50] rfl⟩

end ScreenDiags
